import Mathlib

/-!
Verification of the nightingale viewport/zoom-synchronization engine
(the `withZoom` mixin) and the links track's `contacts` setter.

The engine is embedded shallowly over exact rationals:
* `LinearScale` models a d3 `scaleLinear` (domain/range endpoints plus the
  piecewise interpolation/deinterpolation semantics, including d3's
  degenerate-interval behaviour where `normalize` collapses to the constant
  1/2).
* `Transform` models a d3 zoom transform with its `scale`, `translate`,
  `invertX` and `rescaleX` operations.
* `ZoomState` carries the mutable fields of the `WithZoom` class; the methods
  are state-passing functions that also emit a trace of `Action`s recording
  the externally observable effects (scheduling a frame, binding the gesture
  recognizer, invoking `zoom.transform`, dispatching a `change` event).
-/

namespace Nightingale

/-- Model of a d3 linear scale: domain `[d0, d1]`, range `[r0, r1]`. -/
structure LinearScale where
  d0 : ℚ
  d1 : ℚ
  r0 : ℚ
  r1 : ℚ
deriving DecidableEq, Repr

/-- `scale(x)`: linear interpolation from domain to range. When the domain is
degenerate d3's `normalize` returns the constant 1/2, so the scale maps every
input to the midpoint of the range. -/
def LinearScale.apply (s : LinearScale) (x : ℚ) : ℚ :=
  if s.d1 = s.d0 then s.r0 + (s.r1 - s.r0) / 2
  else s.r0 + (x - s.d0) * (s.r1 - s.r0) / (s.d1 - s.d0)

/-- `scale.invert(y)`: linear interpolation from range back to domain, with
the same degenerate-interval convention on the range side. -/
def LinearScale.invert (s : LinearScale) (y : ℚ) : ℚ :=
  if s.r1 = s.r0 then s.d0 + (s.d1 - s.d0) / 2
  else s.d0 + (y - s.r0) * (s.d1 - s.d0) / (s.r1 - s.r0)

/-- Model of a d3 zoom transform: scale factor `k` and x-translation `x`
(the y component is irrelevant to this horizontal engine). -/
structure Transform where
  k : ℚ
  x : ℚ
deriving DecidableEq, Repr

/-- `zoomIdentity`. -/
def Transform.identity : Transform := ⟨1, 0⟩

/-- `transform.scale(c)` returns `Transform(k * c, x, y)`. -/
def Transform.scale (t : Transform) (c : ℚ) : Transform :=
  ⟨t.k * c, t.x⟩

/-- `transform.translate(dx, dy)` returns `Transform(k, x + k * dx, y + k * dy)`. -/
def Transform.translate (t : Transform) (dx : ℚ) (_dy : ℚ) : Transform :=
  ⟨t.k, t.x + t.k * dx⟩

/-- `transform.applyX(p) = p * k + x`. -/
def Transform.applyX (t : Transform) (p : ℚ) : ℚ := p * t.k + t.x

/-- `transform.invertX(p) = (p - x) / k`. -/
def Transform.invertX (t : Transform) (p : ℚ) : ℚ := (p - t.x) / t.k

/-- `transform.rescaleX(s)`: copies `s` and replaces its domain by the range
endpoints pulled back through the transform and then through `s.invert`. -/
def Transform.rescaleX (t : Transform) (s : LinearScale) : LinearScale :=
  { s with d0 := s.invert (t.invertX s.r0), d1 := s.invert (t.invertX s.r1) }

/-- The zoom behaviour configured by `_initZoom`: `scaleExtent([1, Infinity])`
and `translateExtent`/`extent` both `[[0, 0], [W, 0]]` where `W` is
`getWidthWithMargins()`. Only the configuration data is carried. -/
structure ZoomBehavior where
  scaleExtentMin : ℚ
  translateExtentMax : ℚ
deriving DecidableEq, Repr

/-- Externally observable effects of the engine's methods. -/
inductive Action where
  | rebuildScale
  | refreshOrigin
  | bindGesture
  | scheduleFrame
  | applyTransform (t : Transform)
  | dispatch (displayStart displayEnd : ℚ)
deriving DecidableEq, Repr

/-- The mutable fields of the `WithZoom` class (plus the attribute-backed
fields `length`, `width`, margins and `display-start`/`display-end` supplied
by the sibling mixins, and the `aboutToApply` flag closed over in the
constructor together with the count of frame callbacks it has scheduled).
`Option` renders a field that may be `undefined` in the source. -/
structure ZoomState where
  length : Option ℚ
  width : ℚ
  marginLeft : ℚ
  marginRight : ℚ
  displayStart : Option ℚ
  displayEnd : Option ℚ
  xScale : Option LinearScale
  originXScale : Option LinearScale
  zoom : Option ZoomBehavior
  svgAttached : Bool
  dontDispatch : Bool
  aboutToApply : Bool
  scheduledFrames : ℕ
deriving DecidableEq, Repr

/-- Modelled from the spec: `getWidthWithMargins` lives in the `withMargin`
mixin, which is not among the provided sources; the spec describes the
drawable width as the viewport width with the left/right margins
subtracted. -/
def ZoomState.getWidthWithMargins (st : ZoomState) : ℚ :=
  st.width - st.marginLeft - st.marginRight

/-- `_updateScaleDomain`: rebuilds the scale model as
`scaleLinear().domain([1, (length or 0) + 1]).range([0, getWidthWithMargins()])`. -/
def ZoomState.updateScaleDomain (st : ZoomState) : ZoomState :=
  { st with xScale := some ⟨1, st.length.getD 0 + 1, 0, st.getWidthWithMargins⟩ }

/-- `_initZoom`: creates the zoom behaviour with `scaleExtent([1, Infinity])`
and translate extent `[[0, 0], [getWidthWithMargins(), 0]]`. -/
def ZoomState.initZoom (st : ZoomState) : ZoomState :=
  { st with zoom := some ⟨1, st.getWidthWithMargins⟩ }

/-- The visible range as computed inside `zoomed` when it dispatches the
`change` event: reads `xScale.domain()` (falling back to `[0, 0]`), then
`display-start = max(1, start)` and
`display-end = min(length or 0, max(end - 1, start + 1))`. -/
def ZoomState.visibleRange (st : ZoomState) : ℚ × ℚ :=
  let dom : ℚ × ℚ :=
    match st.xScale with
    | some sc => (sc.d0, sc.d1)
    | none => (0, 0)
  (max 1 dom.1, min (st.length.getD 0) (max (dom.2 - 1) (dom.1 + 1)))

/-- `zoomed(d3Event)`: rescales the origin scale by the event's transform
(when the origin exists), then dispatches the `change` event unless
`dontDispatch` is set or there is no scale model. -/
def ZoomState.zoomed (st : ZoomState) (t : Transform) : ZoomState × List Action :=
  let st1 :=
    match st.originXScale with
    | some o => { st with xScale := some (t.rescaleX o) }
    | none => st
  if st1.dontDispatch || st1.xScale.isNone then (st1, [])
  else (st1, [Action.dispatch st1.visibleRange.1 st1.visibleRange.2])

/-- `_applyZoomTranslation` (the un-debounced body, line 194): bails out
without an svg or origin scale; computes
`k = max(1, (length or 0) / (1 + (display-end or 0) - (display-start or 0)))`
and `dx = -originXScale(display-start or 0)`; sets the `dontDispatch` latch;
calls `zoom.transform` with `zoomIdentity.scale(k).translate(dx, 0)` (which
synchronously fires the `zoom` event, i.e. `zoomed`); clears the latch. -/
def ZoomState.applyZoomTranslationNow (st : ZoomState) : ZoomState × List Action :=
  match st.originXScale with
  | none => (st, [])
  | some o =>
    if !st.svgAttached then (st, [])
    else
      let k := max 1 ((st.length.getD 0) /
        (1 + st.displayEnd.getD 0 - st.displayStart.getD 0))
      let dx := -(o.apply (st.displayStart.getD 0))
      let t := (Transform.identity.scale k).translate dx 0
      let st1 := { st with dontDispatch := true }
      match st1.zoom with
      | some _ =>
        let r := st1.zoomed t
        ({ r.1 with dontDispatch := false }, Action.applyTransform t :: r.2)
      | none => ({ st1 with dontDispatch := false }, [])

/-- The un-debounced `_applyZoomTranslation` typed with an explicit error
channel, making it visible that the body (lines 194-217) contains no throw
path: every input returns `Except.ok`. -/
def ZoomState.applyZoomTranslationE (st : ZoomState) :
    Except String (ZoomState × List Action) :=
  Except.ok st.applyZoomTranslationNow

/-- The debounced `applyZoomTranslation` installed in the constructor: a
no-op while `aboutToApply` is set, otherwise sets the flag and schedules one
animation-frame callback. -/
def ZoomState.requestApply (st : ZoomState) : ZoomState × List Action :=
  if st.aboutToApply then (st, [])
  else ({ st with aboutToApply := true, scheduledFrames := st.scheduledFrames + 1 },
    [Action.scheduleFrame])

/-- `n` successive calls of the debounced `applyZoomTranslation`, with the
traces concatenated. -/
def requestApplyIter : ℕ → ZoomState → ZoomState × List Action
  | 0, st => (st, [])
  | n + 1, st =>
    let r1 := st.requestApply
    let r2 := requestApplyIter n r1.1
    (r2.1, r1.2 ++ r2.2)

/-- Runs `n` queued animation-frame callbacks: each clears `aboutToApply`
and performs the un-debounced `_applyZoomTranslation` once. -/
def runFrameCallbacks : ℕ → ZoomState → ZoomState × List Action
  | 0, st => (st, [])
  | n + 1, st =>
    let r1 := ZoomState.applyZoomTranslationNow { st with aboutToApply := false }
    let r2 := runFrameCallbacks n r1.1
    (r2.1, r1.2 ++ r2.2)

/-- The next animation frame: drains the queue of scheduled callbacks. -/
def ZoomState.fireFrame (st : ZoomState) : ZoomState × List Action :=
  runFrameCallbacks st.scheduledFrames { st with scheduledFrames := 0 }

/-- The attribute names that force a scale rebuild. -/
def attributesThatTriggerRefresh : List String := ["length", "width", "height"]

/-- `attributeChangedCallback`: after the superclass layers (the
`withDimensions`/`withPosition`/`withMargin` mixins, not among the provided
sources) have stored the parsed attribute value — `st` is the state after
that super call — it returns early without a zoom behaviour; normalizes the
string `"null"` to `null`; and when the value actually changed, rebuilds the
scale domain and refreshes the origin copy for the structural attributes
`length`/`width`/`height`, then calls the debounced `applyZoomTranslation`. -/
def ZoomState.attributeChangedCallback (st : ZoomState) (name : String)
    (oldValue newValue : Option String) : ZoomState × List Action :=
  if st.zoom.isNone then (st, [])
  else
    let newV := if newValue = some "null" then none else newValue
    if oldValue = newV then (st, [])
    else
      let p :=
        if name ∈ attributesThatTriggerRefresh then
          let s1 := st.updateScaleDomain
          ({ s1 with originXScale := s1.xScale },
            [Action.rebuildScale, Action.refreshOrigin])
        else (st, ([] : List Action))
      let r := p.1.requestApply
      (r.1, p.2 ++ r.2)

/-- `connectedCallback`: rebuilds the scale domain, copies it into the origin
cache when present, and initializes the zoom behaviour. -/
def ZoomState.connectedCallback (st : ZoomState) : ZoomState × List Action :=
  let s1 := st.updateScaleDomain
  match s1.xScale with
  | some _ =>
    (({ s1 with originXScale := s1.xScale }).initZoom,
      [Action.rebuildScale, Action.refreshOrigin])
  | none => (s1.initZoom, [Action.rebuildScale])

/-- `set svg`: returns untouched without a new surface or without a zoom
behaviour; otherwise stores the surface, binds the gesture recognizer
(`svg.call(this._zoom)`) and calls the debounced `applyZoomTranslation`. -/
def ZoomState.setSvg (st : ZoomState) (svg : Option Unit) : ZoomState × List Action :=
  match svg, st.zoom with
  | some _, some _ =>
    let st1 := { st with svgAttached := true }
    let r := st1.requestApply
    (r.1, Action.bindGesture :: r.2)
  | _, _ => (st, [])

/-- `getXFromSeqPosition`: sentinel `-1` without a scale model, otherwise the
left margin plus the scale applied to the position. -/
def ZoomState.getXFromSeqPosition (st : ZoomState) (position : ℚ) : ℚ :=
  match st.xScale with
  | none => -1
  | some sc => st.marginLeft + sc.apply position

/-- `getSingleBaseWidth`: sentinel `-1` without a scale model, otherwise
`xScale(2) - xScale(1)`. -/
def ZoomState.getSingleBaseWidth (st : ZoomState) : ℚ :=
  match st.xScale with
  | none => -1
  | some sc => sc.apply 2 - sc.apply 1

/-- Formalizes the d3-zoom gesture constraint for the extents configured by
`_initZoom` (viewport extent and translate extent both `[[0, 0], [W, 0]]`):
a gesture-produced transform keeps the scale at or above the scale-extent
minimum and keeps the viewport, pulled back through the transform, inside
the translate extent. -/
def gestureAdmissible (z : ZoomBehavior) (t : Transform) : Prop :=
  z.scaleExtentMin ≤ t.k ∧ 0 ≤ t.invertX 0 ∧
    t.invertX z.translateExtentMax ≤ z.translateExtentMax

/-- The argument of the links track's `set contacts` (nightingale-links):
a raw string, an array of number rows, or anything else (the malformed
case). -/
inductive ContactsInput where
  | ofString (raw : String)
  | ofArray (rows : List (List ℚ))
  | invalid
deriving DecidableEq, Repr

/-- The `_rawData` stored by `set contacts`; `parseToRowData` lives in
`links-parser` (not among the provided sources), so the parsed form of a
string is kept abstract as a tag on the raw string. -/
inductive RawData where
  | fromString (raw : String)
  | fromArray (rows : List (List ℚ))
deriving DecidableEq, Repr

/-- `set contacts` (nightingale-links, lines 69-81): parses a string through
`parseToRowData`, keeps an array as-is, and throws
`Error("data is not in a valid format")` on anything else. -/
def setContacts (data : ContactsInput) : Except String RawData :=
  match data with
  | .ofString s => .ok (.fromString s)
  | .ofArray rows => .ok (.fromArray rows)
  | .invalid => .error "data is not in a valid format"

/-- The origin scale built for sequence length `L` and drawable width `W`:
domain `[1, L + 1]`, range `[0, W]`. -/
def originScale (L W : ℚ) : LinearScale := ⟨1, L + 1, 0, W⟩

/-- A connected engine with sequence length `L`, drawable width `W` (no
margins) and requested visible range `[s, e]`: the state right after
`connectedCallback` has rebuilt the scale, cached the origin and created the
zoom behaviour, with the svg surface attached. -/
def engineState (L W s e : ℚ) : ZoomState :=
  { length := some L
    width := W
    marginLeft := 0
    marginRight := 0
    displayStart := some s
    displayEnd := some e
    xScale := some (originScale L W)
    originXScale := some (originScale L W)
    zoom := some ⟨1, W⟩
    svgAttached := true
    dontDispatch := false
    aboutToApply := false
    scheduledFrames := 0 }

/-! ### Helper lemmas -/

/-- While the `dontDispatch` latch is set, `zoomed` emits nothing. -/
theorem zoomed_latched (st : ZoomState) (t : Transform)
    (h : st.dontDispatch = true) : (st.zoomed t).2 = [] := by
  unfold ZoomState.zoomed
  cases ho : st.originXScale <;> simp [ho, h]

/-- The un-debounced `_applyZoomTranslation` never emits a `change`
dispatch: the latch is set around the `zoom.transform` call. -/
theorem dispatch_not_mem_applyNow (st : ZoomState) (ds de : ℚ) :
    Action.dispatch ds de ∉ (st.applyZoomTranslationNow).2 := by
  unfold ZoomState.applyZoomTranslationNow
  cases ho : st.originXScale with
  | none => simp
  | some o =>
    by_cases hs : st.svgAttached
    · cases hz : st.zoom with
      | none => simp [hs, hz]
      | some zb => simp [hs, hz, zoomed_latched]
    · simp [hs]

/-- No queued frame callback ever emits a `change` dispatch. -/
theorem dispatch_not_mem_runFrames (n : ℕ) (st : ZoomState) (ds de : ℚ) :
    Action.dispatch ds de ∉ (runFrameCallbacks n st).2 := by
  induction n generalizing st with
  | zero => simp [runFrameCallbacks]
  | succ n ih =>
    simp only [runFrameCallbacks, List.mem_append]
    push_neg
    exact ⟨dispatch_not_mem_applyNow _ _ _, ih _⟩

/-! ### Claim theorems -/

/-- C2: a programmatic visible-range application never causes a `change`
notification — neither the synchronous `_applyZoomTranslation` run nor the
animation-frame drain of the debounced scheduler emits a dispatch, for every
engine state, because the `dontDispatch` latch is set for the whole
synchronous duration of the call and `zoomed` suppresses dispatch while it
is set. -/
theorem C2_programmatic_apply_never_dispatches (st : ZoomState) (ds de : ℚ) :
    Action.dispatch ds de ∉ (st.applyZoomTranslationNow).2 ∧
    Action.dispatch ds de ∉ (st.fireFrame).2 := by
  refine ⟨dispatch_not_mem_applyNow st ds de, ?_⟩
  unfold ZoomState.fireFrame
  exact dispatch_not_mem_runFrames _ _ ds de

/-- C3: applying an externally supplied visible range `[s, e]` invokes
`zoom.transform` with exactly the transform
`zoomIdentity.scale(k).translate(-originScale(s), 0)` where
`k = max(1, L / (1 + e - s))`; unfolding the d3 composition, that transform
has scale factor `k` and x-translation `-k * originScale(s)`. -/
theorem C3_programmatic_transform_formula (st : ZoomState) (o : LinearScale)
    (zb : ZoomBehavior) (L s e : ℚ) (ho : st.originXScale = some o)
    (hsvg : st.svgAttached = true) (hz : st.zoom = some zb)
    (hL : st.length = some L) (hs : st.displayStart = some s)
    (he : st.displayEnd = some e) (_hlt : s < e) :
    (st.applyZoomTranslationNow).2 =
      [Action.applyTransform ((Transform.identity.scale
        (max 1 (L / (1 + e - s)))).translate (-(o.apply s)) 0)] ∧
    (Transform.identity.scale (max 1 (L / (1 + e - s)))).translate
        (-(o.apply s)) 0 =
      ⟨max 1 (L / (1 + e - s)), -(max 1 (L / (1 + e - s)) * o.apply s)⟩ := by
  constructor
  · unfold ZoomState.applyZoomTranslationNow
    simp [ho, hsvg, hz, hL, hs, he, zoomed_latched]
  · simp only [Transform.identity, Transform.scale, Transform.translate,
      Transform.mk.injEq]
    constructor <;> ring

/-- Witness for C3 at sequence length 10, width 100, visible range [2, 5]. -/
theorem C3_programmatic_transform_formula_witness :
    ((engineState 10 100 2 5).applyZoomTranslationNow).2 =
      [Action.applyTransform ((Transform.identity.scale
        (max 1 (10 / (1 + 5 - 2)))).translate
        (-((originScale 10 100).apply 2)) 0)] ∧
    (Transform.identity.scale (max 1 ((10 : ℚ) / (1 + 5 - 2)))).translate
        (-((originScale 10 100).apply 2)) 0 =
      ⟨max 1 (10 / (1 + 5 - 2)),
        -(max 1 ((10 : ℚ) / (1 + 5 - 2)) * (originScale 10 100).apply 2)⟩ :=
  C3_programmatic_transform_formula (engineState 10 100 2 5)
    (originScale 10 100) ⟨1, 100⟩ 10 2 5 rfl rfl rfl rfl rfl rfl (by norm_num)

/-- An engine that has not been connected yet: nothing initialized. -/
def idleState : ZoomState :=
  { length := none
    width := 0
    marginLeft := 0
    marginRight := 0
    displayStart := none
    displayEnd := none
    xScale := none
    originXScale := none
    zoom := none
    svgAttached := false
    dontDispatch := false
    aboutToApply := false
    scheduledFrames := 0 }

/-- A debounced call made while `aboutToApply` is set is absorbed. -/
theorem requestApply_absorbed (st : ZoomState) (h : st.aboutToApply = true) :
    st.requestApply = (st, []) := by
  unfold ZoomState.requestApply
  simp [h]

/-- Any number of debounced calls made while `aboutToApply` is set are
absorbed. -/
theorem requestApplyIter_absorbed (n : ℕ) (st : ZoomState)
    (h : st.aboutToApply = true) : requestApplyIter n st = (st, []) := by
  induction n with
  | zero => rfl
  | succ n ih => simp [requestApplyIter, requestApply_absorbed st h, ih]

/-- C5: calling the debounced `applyZoomTranslation` `N ≥ 2` times from an
idle scheduler schedules exactly one frame callback (later calls are
absorbed, not queued), and firing the next animation frame performs exactly
one run of the underlying `_applyZoomTranslation`. -/
theorem C5_debounce_coalescing (st : ZoomState) (N : ℕ) (hN : 2 ≤ N)
    (ha : st.aboutToApply = false) (hq : st.scheduledFrames = 0) :
    requestApplyIter N st =
      ({ st with aboutToApply := true, scheduledFrames := 1 },
        [Action.scheduleFrame]) ∧
    (requestApplyIter N st).1.fireFrame = st.applyZoomTranslationNow := by
  obtain ⟨m, rfl⟩ : ∃ m, N = m + 1 := ⟨N - 1, by omega⟩
  obtain ⟨len, w, ml, mr, dsv, dev, xs, oxs, zm, svg, dd, ato, sf⟩ := st
  dsimp only at ha hq
  subst ha
  subst hq
  have h2 : requestApplyIter (m + 1)
      ⟨len, w, ml, mr, dsv, dev, xs, oxs, zm, svg, dd, false, 0⟩ =
      (⟨len, w, ml, mr, dsv, dev, xs, oxs, zm, svg, dd, true, 1⟩,
        [Action.scheduleFrame]) := by
    simp [requestApplyIter, ZoomState.requestApply, requestApplyIter_absorbed]
  refine ⟨h2, ?_⟩
  rw [h2]
  simp [ZoomState.fireFrame, runFrameCallbacks]

/-- Witness for C5: two debounced calls on a fresh engine coalesce into one
scheduled frame and one underlying recompute. -/
theorem C5_debounce_coalescing_witness :
    requestApplyIter 2 (engineState 10 100 2 5) =
      ({ engineState 10 100 2 5 with
          aboutToApply := true, scheduledFrames := 1 },
        [Action.scheduleFrame]) ∧
    (requestApplyIter 2 (engineState 10 100 2 5)).1.fireFrame =
      (engineState 10 100 2 5).applyZoomTranslationNow :=
  C5_debounce_coalescing (engineState 10 100 2 5) 2 (by norm_num) rfl rfl

/-- C10: assigning a rendering surface is a complete no-op (state unchanged,
no gesture binding, no scheduled re-apply) when the surface is null or the
zoom behaviour does not exist yet; once the zoom behaviour exists, the
assignment stores the surface, binds the gesture recognizer and schedules a
re-apply of the current transform. -/
theorem C10_svg_setter_lazy_binding :
    (∀ st : ZoomState, st.setSvg none = (st, [])) ∧
    (∀ (st : ZoomState) (v : Option Unit), st.zoom = none →
      st.setSvg v = (st, [])) ∧
    (∀ (st : ZoomState) (zb : ZoomBehavior), st.zoom = some zb →
      st.aboutToApply = false →
      st.setSvg (some ()) =
        ({ st with
            svgAttached := true, aboutToApply := true,
            scheduledFrames := st.scheduledFrames + 1 },
          [Action.bindGesture, Action.scheduleFrame])) := by
  refine ⟨?_, ?_, ?_⟩
  · intro st
    cases hz : st.zoom <;> simp [ZoomState.setSvg, hz]
  · intro st v hz
    cases v <;> simp [ZoomState.setSvg, hz]
  · intro st zb hz ha
    simp [ZoomState.setSvg, hz, ZoomState.requestApply, ha]

/-- Witness for C10: attaching a surface to a connected engine binds the
gesture recognizer and schedules a re-apply. -/
theorem C10_svg_setter_lazy_binding_witness :
    (engineState 10 100 2 5).setSvg (some ()) =
      ({ engineState 10 100 2 5 with
          svgAttached := true, aboutToApply := true,
          scheduledFrames := (engineState 10 100 2 5).scheduledFrames + 1 },
        [Action.bindGesture, Action.scheduleFrame]) :=
  C10_svg_setter_lazy_binding.2.2 (engineState 10 100 2 5) ⟨1, 100⟩ rfl rfl

/-- C7: rebuilding the scale model always succeeds and produces the linear
map with domain `[1, L + 1]` and range `[0, getWidthWithMargins]`, where a
missing length behaves exactly like length 0; the produced scale is an
affine map. -/
theorem C7_scale_model_construction (st : ZoomState) :
    (st.updateScaleDomain).xScale =
      some (originScale (st.length.getD 0) st.getWidthWithMargins) ∧
    (∃ a b : ℚ, ∀ x : ℚ,
      (originScale (st.length.getD 0) st.getWidthWithMargins).apply x =
        a * x + b) ∧
    ({ st with length := none } : ZoomState).updateScaleDomain.xScale =
      ({ st with length := some 0 } : ZoomState).updateScaleDomain.xScale := by
  refine ⟨rfl, ?_,
    by simp [ZoomState.updateScaleDomain, ZoomState.getWidthWithMargins]⟩
  by_cases hL : st.length.getD 0 = 0
  · refine ⟨0, st.getWidthWithMargins / 2, fun x => ?_⟩
    simp [LinearScale.apply, originScale, hL]
  · refine ⟨st.getWidthWithMargins / st.length.getD 0,
      -(st.getWidthWithMargins / st.length.getD 0), fun x => ?_⟩
    have h1 : st.length.getD 0 + 1 ≠ 1 := by
      intro h
      exact hL (by linarith)
    simp only [LinearScale.apply, originScale, h1, if_false]
    field_simp
    ring

/-- C8: both coordinate accessors return the sentinel `-1` exactly when the
scale model is uninitialized; otherwise `getXFromSeqPosition` is the left
margin plus the scale of the position and `getSingleBaseWidth` is
`xScale(2) - xScale(1)`. -/
theorem C8_sentinel_accessors (st : ZoomState) (p : ℚ) :
    (st.xScale = none →
      st.getXFromSeqPosition p = -1 ∧ st.getSingleBaseWidth = -1) ∧
    (∀ sc : LinearScale, st.xScale = some sc →
      st.getXFromSeqPosition p = st.marginLeft + sc.apply p ∧
      st.getSingleBaseWidth = sc.apply 2 - sc.apply 1) := by
  constructor
  · intro h
    simp [ZoomState.getXFromSeqPosition, ZoomState.getSingleBaseWidth, h]
  · intro sc h
    simp [ZoomState.getXFromSeqPosition, ZoomState.getSingleBaseWidth, h]

/-- Witness for C8: sentinel on a fresh unconnected engine, real coordinates
on a connected one. -/
theorem C8_sentinel_accessors_witness :
    (idleState.getXFromSeqPosition 5 = -1 ∧
      idleState.getSingleBaseWidth = -1) ∧
    ((engineState 10 100 2 5).getXFromSeqPosition 5 =
        (engineState 10 100 2 5).marginLeft + (originScale 10 100).apply 5 ∧
      (engineState 10 100 2 5).getSingleBaseWidth =
        (originScale 10 100).apply 2 - (originScale 10 100).apply 1) :=
  ⟨(C8_sentinel_accessors idleState 5).1 rfl,
    (C8_sentinel_accessors (engineState 10 100 2 5) 5).2
      (originScale 10 100) rfl⟩

/-- Rescaling the origin scale for length `L` and width `W` by a transform
`⟨k, k * dx⟩` yields the domain endpoints in closed form. -/
theorem rescale_domain (L W k dx : ℚ) (hW : W ≠ 0) (hk : k ≠ 0) :
    Transform.rescaleX ⟨k, k * dx⟩ (originScale L W) =
      ⟨1 + (-dx) * L / W, 1 + (W / k - dx) * L / W, 0, W⟩ := by
  simp only [Transform.rescaleX, Transform.invertX, LinearScale.invert,
    originScale]
  simp only [LinearScale.mk.injEq]
  norm_num [hW]
  constructor <;> field_simp <;> ring

/-- The scale model produced by a programmatic visible-range application on
a connected engine, in closed form. -/
theorem applyNow_xScale (L W s e : ℚ) (hW : W ≠ 0)
    (hk0 : max 1 (L / (1 + e - s)) ≠ 0) :
    ((engineState L W s e).applyZoomTranslationNow).1.xScale =
      some (⟨1 + ((originScale L W).apply s) * L / W,
        1 + (W / max 1 (L / (1 + e - s)) + (originScale L W).apply s) * L / W,
        0, W⟩ : LinearScale) := by
  simp only [ZoomState.applyZoomTranslationNow, engineState]
  simp only [Option.getD_some, Bool.not_true, Bool.false_eq_true, if_false,
    ZoomState.zoomed, Bool.true_or, if_true]
  have hT : (Transform.identity.scale (1 ⊔ (L / (1 + e - s)))).translate
      (-(originScale L W).apply s) 0 =
      ⟨1 ⊔ (L / (1 + e - s)),
        (1 ⊔ (L / (1 + e - s))) * (-(originScale L W).apply s)⟩ := by
    simp [Transform.identity, Transform.scale, Transform.translate]
  rw [hT, rescale_domain L W _ _ hW hk0]
  simp only [Option.some.injEq, LinearScale.mk.injEq]
  refine ⟨by ring, by ring, trivial, trivial⟩

/-- A programmatic visible-range application leaves the sequence length
untouched. -/
theorem applyNow_length (L W s e : ℚ) :
    ((engineState L W s e).applyZoomTranslationNow).1.length = some L := by
  simp only [ZoomState.applyZoomTranslationNow, engineState]
  simp only [Option.getD_some, Bool.not_true, Bool.false_eq_true, if_false,
    ZoomState.zoomed, Bool.true_or, if_true]

/-- C1: round-trip idempotence of the programmatic visible-range
application. For integer sequence positions `1 ≤ s < e ≤ L` on a connected
engine of drawable width `W > 0`, applying the visible range `[s, e]` and
reading back the visible range derived from the resulting scale model yields
exactly `(s, e)` — in exact rational arithmetic the round trip is not merely
approximate but exact. -/
theorem C1_visible_range_round_trip (L W : ℚ) (s e : ℤ) (hs : 1 ≤ s)
    (hse : s < e) (heL : (e : ℚ) ≤ L) (hW : 0 < W) :
    ((engineState L W (s : ℚ) (e : ℚ)).applyZoomTranslationNow).1.visibleRange =
      ((s : ℚ), (e : ℚ)) := by
  have hs1 : (1 : ℚ) ≤ (s : ℚ) := by exact_mod_cast hs
  have hse1 : (s : ℚ) + 1 ≤ (e : ℚ) := by exact_mod_cast (by omega : s + 1 ≤ e)
  have hW0 : W ≠ 0 := ne_of_gt hW
  have hL2 : (2 : ℚ) ≤ L := le_trans (by linarith) heL
  have hL0 : L ≠ 0 := by linarith
  have hL1 : L + 1 ≠ 1 := by
    intro h
    exact hL0 (by linarith)
  have hden : (0 : ℚ) < 1 + (e : ℚ) - (s : ℚ) := by linarith
  have hk1 : (1 : ℚ) ≤ L / (1 + (e : ℚ) - (s : ℚ)) :=
    (one_le_div hden).mpr (by linarith)
  have hk : (1 : ℚ) ⊔ (L / (1 + (e : ℚ) - (s : ℚ))) =
      L / (1 + (e : ℚ) - (s : ℚ)) := max_eq_right hk1
  have hk0 : (1 : ℚ) ⊔ (L / (1 + (e : ℚ) - (s : ℚ))) ≠ 0 := by
    rw [hk]
    exact ne_of_gt (lt_of_lt_of_le zero_lt_one hk1)
  have happly : (originScale L W).apply (s : ℚ) = ((s : ℚ) - 1) * W / L := by
    simp [originScale, LinearScale.apply, hL1]
  have hx := applyNow_xScale L W (s : ℚ) (e : ℚ) hW0 hk0
  have hl := applyNow_length L W (s : ℚ) (e : ℚ)
  unfold ZoomState.visibleRange
  rw [hx, hl]
  simp only [Option.getD_some]
  rw [happly, hk]
  have hd0 : 1 + ((s : ℚ) - 1) * W / L * L / W = (s : ℚ) := by
    field_simp
  have hd1 : 1 + (W / (L / (1 + (e : ℚ) - (s : ℚ))) +
      ((s : ℚ) - 1) * W / L) * L / W = (e : ℚ) + 1 := by
    rw [div_div_eq_mul_div]
    field_simp
    ring
  rw [hd0, hd1]
  have h2 : ((e : ℚ) + 1 - 1) ⊔ ((s : ℚ) + 1) = (e : ℚ) := by
    rw [add_sub_cancel_right]
    exact max_eq_left (by linarith)
  rw [Prod.mk.injEq]
  exact ⟨max_eq_right hs1, by rw [h2, min_eq_right heL]⟩

/-- Witness for C1: length 10, width 100, requested range [2, 5] reads back
as exactly (2, 5). -/
theorem C1_visible_range_round_trip_witness :
    ((engineState 10 100 ((2 : ℤ) : ℚ)
      ((5 : ℤ) : ℚ)).applyZoomTranslationNow).1.visibleRange =
      (((2 : ℤ) : ℚ), ((5 : ℤ) : ℚ)) :=
  C1_visible_range_round_trip 10 100 2 5 (by norm_num) (by norm_num)
    (by norm_num) (by norm_num)

/-- A gesture transform at the right edge of a length-1000, width-500 track,
zoomed in by a factor of 1000: the visible window of the origin scale is the
domain interval [1000, 1001]. -/
def edgeGestureTransform : Transform := ⟨1000, -499500⟩

/-- C4 (violation): the right-edge deep-zoom gesture respects every d3
constraint configured by `_initZoom` (scale at least 1, window inside the
translate extent), yet the `change` event it makes `zoomed` emit carries
`display-start = 1000` and `display-end = 1000`: a span of 0, fewer than two
displayed positions, contradicting the claimed invariant
`display-end - display-start ≥ 1` and the source's own comment that it
"never zooms in deeper than showing 2 bases". -/
theorem C4_emitted_span_can_be_zero :
    gestureAdmissible ⟨1, 500⟩ edgeGestureTransform ∧
    ((engineState 1000 500 1 1000).zoomed edgeGestureTransform).2 =
      [Action.dispatch 1000 1000] := by
  constructor
  · refine ⟨by norm_num [edgeGestureTransform], ?_, ?_⟩ <;>
      norm_num [Transform.invertX, edgeGestureTransform]
  · norm_num [ZoomState.zoomed, engineState, originScale, Transform.rescaleX,
      Transform.invertX, LinearScale.invert, ZoomState.visibleRange,
      edgeGestureTransform]

/-- C6: a structural attribute change (`length`/`width`/`height`, value
actually changed, zoom behaviour initialized) first rebuilds the scale
model, then refreshes the origin cache with the freshly rebuilt scale, and
only afterwards — at the scheduled animation frame, strictly after both —
re-applies the transform: the combined trace is exactly rebuild, refresh,
schedule, apply. -/
theorem C6_structural_change_ordering (st : ZoomState) (zb : ZoomBehavior)
    (name : String) (oldValue newValue : Option String)
    (hz : st.zoom = some zb) (hsvg : st.svgAttached = true)
    (hname : name ∈ attributesThatTriggerRefresh)
    (hch : oldValue ≠ (if newValue = some "null" then none else newValue))
    (ha : st.aboutToApply = false) (hq : st.scheduledFrames = 0) :
    (st.attributeChangedCallback name oldValue newValue).1.originXScale =
      some (originScale (st.length.getD 0) st.getWidthWithMargins) ∧
    ∃ t : Transform,
      (st.attributeChangedCallback name oldValue newValue).2 ++
        ((st.attributeChangedCallback name oldValue newValue).1.fireFrame).2 =
      [Action.rebuildScale, Action.refreshOrigin, Action.scheduleFrame,
        Action.applyTransform t] := by
  have hcb : st.attributeChangedCallback name oldValue newValue =
      ({ st with
          xScale :=
            some (originScale (st.length.getD 0) st.getWidthWithMargins),
          originXScale :=
            some (originScale (st.length.getD 0) st.getWidthWithMargins),
          aboutToApply := true, scheduledFrames := st.scheduledFrames + 1 },
        [Action.rebuildScale, Action.refreshOrigin, Action.scheduleFrame]) := by
    simp [ZoomState.attributeChangedCallback, hz, hname, hch,
      ZoomState.updateScaleDomain, ZoomState.requestApply, ha, originScale,
      ZoomState.getWidthWithMargins]
  rw [hcb]
  refine ⟨rfl, ⟨(Transform.identity.scale (1 ⊔ st.length.getD 0 /
      (1 + st.displayEnd.getD 0 - st.displayStart.getD 0))).translate
      (-(originScale (st.length.getD 0) st.getWidthWithMargins).apply
        (st.displayStart.getD 0)) 0, ?_⟩⟩
  simp only [ZoomState.fireFrame, hq]
  simp only [runFrameCallbacks, ZoomState.applyZoomTranslationNow]
  simp [hz, hsvg, zoomed_latched]

/-- Witness for C6: changing `length` from "10" to "20" on a connected
engine produces the rebuild-refresh-schedule-apply trace. -/
theorem C6_structural_change_ordering_witness :
    ((engineState 10 100 2 5).attributeChangedCallback "length"
        (some "10") (some "20")).1.originXScale =
      some (originScale ((engineState 10 100 2 5).length.getD 0)
        (engineState 10 100 2 5).getWidthWithMargins) ∧
    ∃ t : Transform,
      ((engineState 10 100 2 5).attributeChangedCallback "length"
          (some "10") (some "20")).2 ++
        (((engineState 10 100 2 5).attributeChangedCallback "length"
          (some "10") (some "20")).1.fireFrame).2 =
      [Action.rebuildScale, Action.refreshOrigin, Action.scheduleFrame,
        Action.applyTransform t] :=
  C6_structural_change_ordering (engineState 10 100 2 5) ⟨1, 100⟩ "length"
    (some "10") (some "20") rfl rfl (by decide) (by decide) rfl rfl

/-- A connected engine whose visible-range pair is malformed: both
`display-start` and `display-end` are undefined. -/
def malformedRangeState : ZoomState :=
  { engineState 10 100 0 0 with displayStart := none, displayEnd := none }

/-- C9 (violation): on a malformed visible-range pair the engine does not
report any error — the error-channel translation returns `ok`, and the run
is byte-for-byte the run obtained by silently defaulting the pair to
`(0, 0)`, ending in a normal transform application. -/
theorem C9_malformed_range_not_reported :
    malformedRangeState.applyZoomTranslationE.isOk = true ∧
    (malformedRangeState.applyZoomTranslationNow).2 =
      ((engineState 10 100 0 0).applyZoomTranslationNow).2 ∧
    (malformedRangeState.applyZoomTranslationNow).2 ≠ [] := by
  refine ⟨rfl, rfl, by decide⟩

/-- C9 (amended): the error the spec describes lives in the links track's
`contacts` setter — string and array inputs are accepted, anything else
throws `Error("data is not in a valid format")` — while the zoom engine
never reports malformed visible-range values: a missing pair is silently
defaulted to 0 and processed like any other input. -/
theorem C9_malformed_input_handling :
    (∀ s : String, setContacts (.ofString s) = .ok (.fromString s)) ∧
    (∀ rows : List (List ℚ),
      setContacts (.ofArray rows) = .ok (.fromArray rows)) ∧
    setContacts .invalid = .error "data is not in a valid format" ∧
    (∀ st : ZoomState, st.displayStart = none → st.displayEnd = none →
      (st.applyZoomTranslationNow).2 =
        (({ st with displayStart := some 0, displayEnd := some 0 } :
          ZoomState).applyZoomTranslationNow).2) := by
  refine ⟨fun s => rfl, fun rows => rfl, rfl, ?_⟩
  intro st h1 h2
  unfold ZoomState.applyZoomTranslationNow
  cases ho : st.originXScale with
  | none => simp [ho]
  | some o =>
    cases hv : st.svgAttached with
    | false => simp [ho, hv]
    | true =>
      cases hz : st.zoom with
      | none => simp [ho, hv, hz]
      | some zb => simp [ho, hv, hz, h1, h2, zoomed_latched]

/-- Witness for C9 (amended): a parsed string is accepted, a malformed
contacts payload raises the error, and the engine treats an undefined
visible-range pair exactly like the pair (0, 0). -/
theorem C9_malformed_input_handling_witness :
    setContacts (.ofString "0 2 0.99") = .ok (.fromString "0 2 0.99") ∧
    setContacts .invalid = .error "data is not in a valid format" ∧
    (malformedRangeState.applyZoomTranslationNow).2 =
      (({ malformedRangeState with
          displayStart := some 0, displayEnd := some 0 } :
        ZoomState).applyZoomTranslationNow).2 :=
  ⟨C9_malformed_input_handling.1 "0 2 0.99",
    C9_malformed_input_handling.2.2.1,
    C9_malformed_input_handling.2.2.2 malformedRangeState rfl rfl⟩

end Nightingale
